import Mathlib

set_option maxRecDepth 8000

/-!
Shallow embedding of the push-notification dispatch pipeline of
src/routes/notifications.ts: the Expo push dispatcher (sendExpoPush), the
static lookup tables (NOTIFICATION_LABELS, TYPE_TO_PREF, TYPE_TO_CHANNEL),
the two webhook handlers (on-notification, on-message) and the digest
handler. Database query results and the push-provider response are passed
in as explicit arguments; JavaScript strings are modelled as Lean strings,
nullable values as Option, and JavaScript objects (where key-overwrite
order matters) as association lists built left to right.
-/

/-- Truthiness of a nullable JavaScript string: null/undefined and the
empty string are falsy, every other string is truthy. -/
def jsTruthy : Option String → Bool
  | none => false
  | some s => s != ""

/-- JavaScript a || b for a nullable string a and string default b:
yields b when a is null/undefined or empty. -/
def jsOr (o : Option String) (d : String) : String :=
  match o with
  | none => d
  | some s => if s = "" then d else s

/-- Lookup in a record-literal table: TABLE[key], undefined when absent. -/
def lookupTable (table : List (String × String)) (k : String) : Option String :=
  (table.find? (fun p => p.1 == k)).map (fun p => p.2)

/-- Minimal JSON value universe needed by the response bodies. -/
inductive JVal where
  | jbool (b : Bool)
  | jnum (n : Int)
  | jstr (s : String)
deriving DecidableEq

/-- JavaScript object modelled as an association list in insertion order. -/
abbrev JObj := List (String × JVal)

/-- Property assignment: overwrite in place when the key exists, else
append (JavaScript object-literal / spread semantics). -/
def jsSet (o : JObj) (k : String) (v : JVal) : JObj :=
  if (List.find? (fun p => p.1 == k) o).isSome then
    List.map (fun p => if p.1 == k then (k, v) else p) o
  else
    o ++ [(k, v)]

/-- Spread of object r into an object literal that already holds o:
properties of r are assigned left to right, overwriting existing keys. -/
def jsSpread (o : JObj) (r : JObj) : JObj :=
  List.foldl (fun acc p => jsSet acc p.1 p.2) o r

/-- Property read o[k]. -/
def jsGet (o : JObj) (k : String) : Option JVal :=
  (List.find? (fun p => p.1 == k) o).map (fun p => p.2)

/-- Result object of sendExpoPush. The fields are JavaScript numbers; the
source computes failed as tokens.length - sent, so Int is the honest type. -/
structure DispatchResult where
  sent : Int
  failed : Int
deriving DecidableEq

/-- Outcome of the single fetch to the push provider: the fetch threw, the
HTTP status was not ok, or a JSON body was produced whose data field (the
per-ticket status strings) may be absent (result.data ?? []). -/
inductive ProviderOutcome where
  | throwErr
  | httpError (status : Nat)
  | success (respData : Option (List String))
deriving DecidableEq

/-- sendExpoPush from the source. Returns the DispatchResult together with
the number of network calls made to the provider (0 or 1: the function
never retries, and it catches every transport error, so it never throws).
On success, sent counts the tickets whose status is ok and
failed := tokens.length - sent. -/
def sendExpoPush (tokens : List String) (title body : String) (data : JObj)
    (outcome : ProviderOutcome) : DispatchResult × Nat :=
  if tokens.length = 0 then ({ sent := 0, failed := 0 }, 0)
  else
    match outcome with
    | .throwErr => ({ sent := 0, failed := (tokens.length : Int) }, 1)
    | .httpError _ => ({ sent := 0, failed := (tokens.length : Int) }, 1)
    | .success respData =>
      let tickets := respData.getD []
      let sent := (tickets.filter (fun t => t == "ok")).length
      ({ sent := (sent : Int), failed := (tokens.length : Int) - (sent : Int) }, 1)

/-- NOTIFICATION_LABELS table from the source. -/
def NOTIFICATION_LABELS : List (String × String) :=
  [("follow", "started following you"),
   ("follow_request", "sent you a follow request"),
   ("like", "liked your recipe"),
   ("comment", "commented on your recipe"),
   ("reply", "replied to your comment"),
   ("mention", "mentioned you"),
   ("new_recipe", "shared a new recipe"),
   ("post_like", "liked your post"),
   ("post_comment", "commented on your post"),
   ("post_reply", "replied to your comment"),
   ("new_post", "published a new post"),
   ("repost", "reposted your post")]

/-- TYPE_TO_PREF table from the source (note: no entry for new_recipe). -/
def TYPE_TO_PREF : List (String × String) :=
  [("follow", "notify_new_follower"),
   ("follow_request", "notify_follow_request"),
   ("like", "notify_recipe_like"),
   ("comment", "notify_recipe_comment"),
   ("reply", "notify_comment_reply"),
   ("mention", "notify_mention"),
   ("post_like", "notify_post_like"),
   ("post_comment", "notify_post_comment"),
   ("post_reply", "notify_post_comment"),
   ("repost", "notify_repost"),
   ("new_post", "notify_new_post_from_following")]

/-- TYPE_TO_CHANNEL table from the source. -/
def TYPE_TO_CHANNEL : List (String × String) :=
  [("follow", "social"),
   ("follow_request", "social"),
   ("like", "social"),
   ("comment", "social"),
   ("reply", "social"),
   ("mention", "social"),
   ("new_recipe", "social"),
   ("post_like", "social"),
   ("post_comment", "social"),
   ("post_reply", "social"),
   ("new_post", "social"),
   ("repost", "social")]

/-- NOTIFICATION_LABELS[t] || fallback, as used to build the body. -/
def labelFor (t : String) : String :=
  jsOr (lookupTable NOTIFICATION_LABELS t) "sent you a notification"

/-- TYPE_TO_CHANNEL[t] || fallback, as used for the channelId. -/
def channelFor (t : String) : String :=
  jsOr (lookupTable TYPE_TO_CHANNEL t) "social"

/-- TYPE_TO_PREF[t]: the preference column for a type, when declared. -/
def prefColumnFor (t : String) : Option String :=
  lookupTable TYPE_TO_PREF t

/-- The guard prefColumn && recipient[prefColumn] === false. Every value
in TYPE_TO_PREF is a non-empty string, so the JavaScript truthiness test
on prefColumn is presence of the table entry. -/
def prefDisabled (prefColumn : Option String) (prefs : String → Option Bool) : Bool :=
  match prefColumn with
  | none => false
  | some col => prefs col == some false

/-- Row inserted into the notifications table, as consumed by the
on-notification webhook. -/
structure NotifRecord where
  user_id : Option String
  type : String
  actor_id : Option String
  target_id : Option String
  target_type : Option String

/-- Recipient profile row as selected by the on-notification handler:
push token, display name, and the boolean preference columns (none models
an absent or unset column). -/
structure NotifRecipient where
  push_token : Option String
  display_name : Option String
  prefs : String → Option Bool

/-- Terminal outcome of a webhook handler body. -/
inductive HandlerResult where
  | skipped (reason : String)
  | dispatched (r : DispatchResult)
deriving DecidableEq

/-- One handler invocation: the JSON outcome, the token batch passed to
sendExpoPush (empty when the dispatcher was never called), the dispatched
body and channelId, and how many provider network calls were made. -/
structure HandlerRun where
  result : HandlerResult
  pushedTokens : List String
  pushedBody : Option String
  pushedChannel : Option String
  providerCalls : Nat
deriving DecidableEq

/-- The on-notification webhook handler. The recipient profile row and the
best-effort actor display-name lookup are passed in as the query results
the source awaits. -/
def onNotification (record : NotifRecord) (recipient : Option NotifRecipient)
    (actorDisplayName : Option String) (outcome : ProviderOutcome) : HandlerRun :=
  if !(jsTruthy record.user_id) then
    { result := .skipped "no user_id", pushedTokens := [], pushedBody := none,
      pushedChannel := none, providerCalls := 0 }
  else
    match recipient with
    | none =>
      { result := .skipped "no_push_token", pushedTokens := [], pushedBody := none,
        pushedChannel := none, providerCalls := 0 }
    | some rcpt =>
      match rcpt.push_token with
      | none =>
        { result := .skipped "no_push_token", pushedTokens := [], pushedBody := none,
          pushedChannel := none, providerCalls := 0 }
      | some tok =>
        if tok = "" then
          { result := .skipped "no_push_token", pushedTokens := [], pushedBody := none,
            pushedChannel := none, providerCalls := 0 }
        else if prefDisabled (prefColumnFor record.type) rcpt.prefs then
          { result := .skipped "user_preference_disabled", pushedTokens := [],
            pushedBody := none, pushedChannel := none, providerCalls := 0 }
        else
          let actorName := jsOr actorDisplayName "Someone"
          let body := actorName ++ " " ++ labelFor record.type
          let channelId := channelFor record.type
          let sendRes := sendExpoPush [tok] "KitchenSync" body [] outcome
          { result := .dispatched sendRes.1, pushedTokens := [tok],
            pushedBody := some body, pushedChannel := some channelId,
            providerCalls := sendRes.2 }

/-- Row inserted into the messages table, as consumed by the on-message
webhook. -/
structure MessageRecord where
  conversation_id : Option String
  sender_id : Option String
  content : Option String
  message_type : Option String

/-- conversation_participants row (sender already excluded by the query). -/
structure Participant where
  user_id : String
  is_muted : Option Bool
deriving DecidableEq

/-- user_profiles row as selected by the on-message handler. -/
structure MsgProfile where
  user_id : String
  push_token : Option String
  display_name : Option String
  notify_direct_message : Option Bool
deriving DecidableEq

/-- participants.filter(p => !p.is_muted).map(p => p.user_id). -/
def unmutedIds (participants : List Participant) : List String :=
  (participants.filter (fun p => p.is_muted != some true)).map (fun p => p.user_id)

/-- The user_profiles query of the on-message handler: rows whose user_id
is among the recipient ids and whose push_token is not null. -/
def profilesQuery (allProfiles : List MsgProfile) (ids : List String) : List MsgProfile :=
  allProfiles.filter (fun p => ids.contains p.user_id && p.push_token.isSome)

/-- The guard if (preview && preview.length > 100) preview =
preview.slice(0, 97) + three dots: strings longer than 100 characters are
cut to their first 97 characters plus the 3-character ellipsis marker. -/
def jsTruncatePreview (s : String) : String :=
  if s ≠ "" ∧ s.length > 100 then ⟨s.data.take 97⟩ ++ "..." else s

/-- JavaScript s.replace(from, to) with string arguments replaces only the
first occurrence. -/
def replaceFirst : List Char → Char → Char → List Char
  | [], _, _ => []
  | c :: rest, from_, to_ =>
    if c = from_ then to_ :: rest else c :: replaceFirst rest from_ to_

/-- Preview composition of the on-message handler: raw content for text
messages, a type phrase otherwise, then the 100-character truncation. -/
def msgPreview (record : MessageRecord) : Option String :=
  let messageType := jsOr record.message_type "text"
  let preview0 : Option String :=
    if messageType ≠ "text" then
      some (if messageType = "image" then "Sent a photo"
            else "Shared " ++ String.mk (replaceFirst messageType.data '_' ' '))
    else record.content
  preview0.map jsTruncatePreview

/-- Token batch of the on-message handler: of the queried profiles, keep
those whose notify_direct_message is not explicitly false, take their
tokens, and drop falsy (null or empty) tokens. -/
def msgTokens (allProfiles : List MsgProfile) (ids : List String) : List String :=
  ((((profilesQuery allProfiles ids).filter
      (fun p => p.notify_direct_message != some false)).map
      (fun p => p.push_token)).filterMap id).filter (fun t => t != "")

/-- The on-message webhook handler. The participants query result (already
excluding the sender), the full user_profiles table and the sender
display-name lookup are passed in explicitly. -/
def onMessage (record : MessageRecord) (participants : List Participant)
    (allProfiles : List MsgProfile) (senderDisplayName : Option String)
    (outcome : ProviderOutcome) : HandlerRun :=
  if !(jsTruthy record.conversation_id) || !(jsTruthy record.sender_id) then
    { result := .skipped "missing fields", pushedTokens := [], pushedBody := none,
      pushedChannel := none, providerCalls := 0 }
  else if participants.isEmpty then
    { result := .skipped "no_recipients", pushedTokens := [], pushedBody := none,
      pushedChannel := none, providerCalls := 0 }
  else
    let recipientIds := unmutedIds participants
    if recipientIds.isEmpty then
      { result := .skipped "all_muted", pushedTokens := [], pushedBody := none,
        pushedChannel := none, providerCalls := 0 }
    else
      let profiles := profilesQuery allProfiles recipientIds
      if profiles.isEmpty then
        { result := .skipped "no_push_tokens", pushedTokens := [], pushedBody := none,
          pushedChannel := none, providerCalls := 0 }
      else
        let senderName := jsOr senderDisplayName "Someone"
        let preview := msgPreview record
        let tokens := msgTokens allProfiles recipientIds
        if tokens.isEmpty then
          { result := .skipped "all_dm_disabled", pushedTokens := [], pushedBody := none,
            pushedChannel := none, providerCalls := 0 }
        else
          let body := jsOr preview "Sent you a message"
          let sendRes := sendExpoPush tokens senderName body [] outcome
          { result := .dispatched sendRes.1, pushedTokens := tokens,
            pushedBody := some body, pushedChannel := some "messages",
            providerCalls := sendRes.2 }

/-- Digest endpoint response: the 200 JSON data object, or the 404 error. -/
inductive DigestResponse where
  | ok (data : JObj)
  | notFound (error : String)
deriving DecidableEq

/-- Plural suffix used by the digest body template literals. -/
def pluralS (n : Nat) : String := if n > 1 then "s" else ""

/-- Digest sentence: the non-zero count phrases joined with and. -/
def digestBody (unread newPosts : Nat) : String :=
  String.intercalate " and "
    ((if unread > 0 then [toString unread ++ " new notification" ++ pluralS unread] else []) ++
     (if newPosts > 0 then
        [toString newPosts ++ " new post" ++ pluralS newPosts ++ " from people you follow"]
      else []))

/-- New-post count of the digest: queried only when the user follows
someone, otherwise it stays 0; a null count is coalesced to 0. -/
def digestNewPostCount (followingIds : List String) (postCount : Option Nat) : Nat :=
  if followingIds.length > 0 then postCount.getD 0 else 0

/-- The object literal of the digest success response,
with sent true spread-overwritten by the fields of the dispatch result. -/
def digestSentData (r : DispatchResult) : JObj :=
  jsSpread (jsSet [] "sent" (.jbool true)) [("sent", .jnum r.sent), ("failed", .jnum r.failed)]

/-- The digest handler. Query results (push token, 24-hour unread count,
followed ids, 24-hour post count) are passed in explicitly; returns the
response and the number of provider network calls. -/
def digest (pushToken : Option String) (unreadCount : Option Nat)
    (followingIds : List String) (postCount : Option Nat)
    (outcome : ProviderOutcome) : DigestResponse × Nat :=
  match pushToken with
  | none => (.notFound "No push token for user", 0)
  | some tok =>
    if tok = "" then (.notFound "No push token for user", 0)
    else if unreadCount.getD 0 = 0 then
      (.ok [("sent", .jbool false), ("reason", .jstr "no_unread")], 0)
    else
      let unread := unreadCount.getD 0
      let newPosts := digestNewPostCount followingIds postCount
      let body := digestBody unread newPosts
      let sendRes := sendExpoPush [tok] "KitchenSync" body [("type", .jstr "digest")] outcome
      (.ok (digestSentData sendRes.1), sendRes.2)

/-! Helper lemmas shared by the claim theorems. -/

/-- Characterization of string truthiness. -/
theorem jsTruthy_eq_true_iff (o : Option String) :
    jsTruthy o = true ↔ ∃ s, o = some s ∧ s ≠ "" := by
  cases o <;> simp [jsTruthy]

/-- A key outside a table makes the lookup miss. -/
theorem lookupTable_eq_none (table : List (String × String)) (t : String)
    (h : t ∉ table.map Prod.fst) : lookupTable table t = none := by
  induction table with
  | nil => rfl
  | cons p rest ih =>
    simp only [List.map_cons, List.mem_cons, not_or] at h
    have hb : (p.1 == t) = false := by
      simp only [beq_eq_false_iff_ne]
      exact fun he => h.1 (he ▸ rfl)
    simp only [lookupTable, List.find?] at *
    rw [hb]
    exact ih h.2

/-- With a non-empty batch, the dispatcher makes exactly one provider call
on every outcome. -/
theorem sendExpoPush_one_call (tokens : List String) (title body : String) (data : JObj)
    (outcome : ProviderOutcome) (h : tokens ≠ []) :
    (sendExpoPush tokens title body data outcome).2 = 1 := by
  have hlen : tokens.length ≠ 0 := fun hl => h (List.length_eq_zero.mp hl)
  cases outcome <;> simp [sendExpoPush, hlen]

/-- An empty id list makes the profiles query empty. -/
theorem profilesQuery_nil_ids (allProfiles : List MsgProfile) :
    profilesQuery allProfiles [] = [] := by
  simp [profilesQuery]

/-- An empty profiles query makes the token batch empty. -/
theorem msgTokens_eq_nil_of_profilesQuery (allProfiles : List MsgProfile) (ids : List String)
    (h : profilesQuery allProfiles ids = []) : msgTokens allProfiles ids = [] := by
  simp [msgTokens, h]

/-- The token batch of the on-message handler is either empty or exactly
the filtered token list. -/
theorem onMessage_pushedTokens_cases (record : MessageRecord) (participants : List Participant)
    (allProfiles : List MsgProfile) (senderDisplayName : Option String)
    (outcome : ProviderOutcome) :
    (onMessage record participants allProfiles senderDisplayName outcome).pushedTokens = [] ∨
    (onMessage record participants allProfiles senderDisplayName outcome).pushedTokens =
      msgTokens allProfiles (unmutedIds participants) := by
  simp only [onMessage]
  repeat' split
  all_goals first | (left; rfl) | (right; rfl)

/-- Every token in the filtered batch is the token of a queried profile
whose direct-message preference is not explicitly false. -/
theorem mem_msgTokens (allProfiles : List MsgProfile) (ids : List String) (t : String)
    (h : t ∈ msgTokens allProfiles ids) :
    ∃ p ∈ profilesQuery allProfiles ids,
      p.push_token = some t ∧ p.notify_direct_message ≠ some false := by
  simp only [msgTokens, List.mem_filter, List.mem_filterMap, List.mem_map, id_eq,
    bne_iff_ne, ne_eq] at h
  obtain ⟨⟨o, ⟨⟨p, ⟨⟨hp, hpref⟩, hpo⟩⟩, ho⟩⟩, _⟩ := h
  exact ⟨p, hp, by rw [hpo, ho], hpref⟩

/-! Claim theorems. -/

/-- Claim C9: dispatching an empty token list yields sent 0 and failed 0
and performs zero network calls to the push provider, for every title,
body and data payload. -/
theorem C9_empty_dispatch (title body : String) (data : JObj) (outcome : ProviderOutcome) :
    sendExpoPush [] title body data outcome = ({ sent := 0, failed := 0 }, 0) := rfl

/-- Claim C4: for every non-empty token list, a thrown transport error or
a non-success HTTP status makes sendExpoPush return sent 0 and failed
tokens.length after exactly one provider call, so there is no retry; the
embedded function is total, so no exception reaches the caller. -/
theorem C4_provider_failure (tokens : List String) (title body : String) (data : JObj)
    (h : tokens ≠ []) :
    sendExpoPush tokens title body data .throwErr =
      ({ sent := 0, failed := (tokens.length : Int) }, 1) ∧
    ∀ status : Nat, sendExpoPush tokens title body data (.httpError status) =
      ({ sent := 0, failed := (tokens.length : Int) }, 1) := by
  have hlen : tokens.length ≠ 0 := fun hl => h (List.length_eq_zero.mp hl)
  exact ⟨by simp [sendExpoPush, hlen], fun status => by simp [sendExpoPush, hlen]⟩

/-- Witness for C4 at a concrete one-token batch. -/
theorem C4_provider_failure_witness :
    sendExpoPush ["tokA"] "t" "b" [] .throwErr = ({ sent := 0, failed := 1 }, 1) ∧
    sendExpoPush ["tokA"] "t" "b" [] (.httpError 500) = ({ sent := 0, failed := 1 }, 1) :=
  ⟨(C4_provider_failure ["tokA"] "t" "b" [] (by decide)).1,
   (C4_provider_failure ["tokA"] "t" "b" [] (by decide)).2 500⟩

/-- Claim C2 counterexample: with one token and a provider success
response carrying two ok tickets, sendExpoPush returns failed = -1, so
the claimed unconditional non-negativity of DispatchResult is false on
the code. -/
theorem C2_negative_failed_counterexample :
    (sendExpoPush ["tokA"] "t" "b" [] (.success (some ["ok", "ok"]))).1 =
      { sent := 2, failed := -1 } ∧
    ¬ (0 : Int) ≤ (sendExpoPush ["tokA"] "t" "b" [] (.success (some ["ok", "ok"]))).1.failed := by
  decide

/-- Claim C2 (amended): on a provider success response, sent counts the
ok tickets, sent + failed always equals tokens.length, sent is
non-negative, and failed is non-negative whenever the ticket list is not
longer than the token list - in particular when the provider returns a
shorter list, which is padded as failed. -/
theorem C2_success_accounting (tokens : List String) (title body : String) (data : JObj)
    (respData : Option (List String)) (h : tokens ≠ []) :
    (sendExpoPush tokens title body data (.success respData)).1.sent =
      (((respData.getD []).filter (fun t => t == "ok")).length : Int) ∧
    (sendExpoPush tokens title body data (.success respData)).1.sent +
      (sendExpoPush tokens title body data (.success respData)).1.failed =
      (tokens.length : Int) ∧
    0 ≤ (sendExpoPush tokens title body data (.success respData)).1.sent ∧
    ((respData.getD []).length ≤ tokens.length →
      0 ≤ (sendExpoPush tokens title body data (.success respData)).1.failed) := by
  have hlen : tokens.length ≠ 0 := fun hl => h (List.length_eq_zero.mp hl)
  have hfl : ((respData.getD []).filter (fun t => t == "ok")).length ≤
      (respData.getD []).length := List.length_filter_le _ _
  have key : sendExpoPush tokens title body data (.success respData) =
      ({ sent := (((respData.getD []).filter (fun t => t == "ok")).length : Int),
         failed := (tokens.length : Int) -
           (((respData.getD []).filter (fun t => t == "ok")).length : Int) }, 1) := by
    simp [sendExpoPush, hlen]
  rw [key]
  dsimp only
  refine ⟨rfl, by omega, by omega, fun hle => by omega⟩

/-- Witness for the amended C2 accounting at a concrete input. -/
theorem C2_success_accounting_witness :
    (sendExpoPush ["a", "b"] "t" "b" [] (.success (some ["ok"]))).1.sent =
      ((((some ["ok"] : Option (List String)).getD []).filter (fun t => t == "ok")).length : Int) ∧
    (sendExpoPush ["a", "b"] "t" "b" [] (.success (some ["ok"]))).1.sent +
      (sendExpoPush ["a", "b"] "t" "b" [] (.success (some ["ok"]))).1.failed =
      ((["a", "b"] : List String).length : Int) ∧
    0 ≤ (sendExpoPush ["a", "b"] "t" "b" [] (.success (some ["ok"]))).1.sent ∧
    0 ≤ (sendExpoPush ["a", "b"] "t" "b" [] (.success (some ["ok"]))).1.failed := by
  have h := C2_success_accounting ["a", "b"] "t" "b" [] (some ["ok"]) (by decide)
  exact ⟨h.1, h.2.1, h.2.2.1, h.2.2.2 (by decide)⟩

/-- Claim C8: a preview longer than 100 characters is truncated to its
first 97 characters plus the 3-character ellipsis marker, for a total of
exactly 100 characters; a preview of at most 100 characters is left
unchanged. -/
theorem C8_preview_truncation (s : String) :
    (s.length > 100 →
      jsTruncatePreview s = String.mk (s.data.take 97) ++ "..." ∧
      (jsTruncatePreview s).length = 100) ∧
    (s.length ≤ 100 → jsTruncatePreview s = s) := by
  constructor
  · intro h
    have hne : s ≠ "" := by
      intro he
      rw [he] at h
      exact absurd h (by decide)
    have heq : jsTruncatePreview s = String.mk (s.data.take 97) ++ "..." := by
      simp [jsTruncatePreview, hne, h]
    refine ⟨heq, ?_⟩
    rw [heq]
    cases s with
    | mk l =>
      have hl : 100 < l.length := h
      simp [String.length, String.append, List.length_take]
      omega
  · intro h
    have hcond : ¬(s ≠ "" ∧ s.length > 100) := fun hh => absurd hh.2 (by omega)
    simp [jsTruncatePreview, hcond]

/-- Witness for C8 at a 150-character string and a short string. -/
theorem C8_preview_truncation_witness :
    jsTruncatePreview (String.mk (List.replicate 150 'a')) =
      String.mk ((String.mk (List.replicate 150 'a')).data.take 97) ++ "..." ∧
    (jsTruncatePreview (String.mk (List.replicate 150 'a'))).length = 100 ∧
    jsTruncatePreview "short" = "short" := by
  have h1 := (C8_preview_truncation (String.mk (List.replicate 150 'a'))).1 (by decide)
  have h2 := (C8_preview_truncation "short").2 (by decide)
  exact ⟨h1.1, h1.2, h2⟩

/-- Claim C7: the three lookup tables are read through total functions
with explicit fallbacks (labelFor, channelFor, prefColumnFor never throw,
being total Lean functions on String); for every type string that is a
key of none of the tables, the composed label is the generic phrase, the
channel is social, and no preference column is consulted. -/
theorem C7_unknown_type_fallback (t : String)
    (h1 : t ∉ NOTIFICATION_LABELS.map Prod.fst)
    (h2 : t ∉ TYPE_TO_PREF.map Prod.fst)
    (h3 : t ∉ TYPE_TO_CHANNEL.map Prod.fst) :
    labelFor t = "sent you a notification" ∧
    channelFor t = "social" ∧
    prefColumnFor t = none := by
  refine ⟨?_, ?_, ?_⟩
  · rw [labelFor, lookupTable_eq_none NOTIFICATION_LABELS t h1]; rfl
  · rw [channelFor, lookupTable_eq_none TYPE_TO_CHANNEL t h3]; rfl
  · rw [prefColumnFor, lookupTable_eq_none TYPE_TO_PREF t h2]

/-- Witness for C7 at a type string outside every table. -/
theorem C7_unknown_type_fallback_witness :
    labelFor "bogus_type" = "sent you a notification" ∧
    channelFor "bogus_type" = "social" ∧
    prefColumnFor "bogus_type" = none :=
  C7_unknown_type_fallback "bogus_type" (by decide) (by decide) (by decide)

/-- Claim C1: a recipient whose mapped preference column is explicitly
false receives zero pushes. In the on-notification handler, a resolved
recipient with a truthy token and an explicitly false preference value for
the mapped column yields the user_preference_disabled skip, with an empty
token batch and zero provider calls; in the on-message handler, every
token of the dispatched batch belongs to a queried profile whose
notify_direct_message is not explicitly false, so a recipient with the
preference explicitly false contributes no token to the batch. -/
theorem C1_pref_disabled_no_push :
    (∀ (record : NotifRecord) (rcpt : NotifRecipient) (actorDisplayName : Option String)
        (outcome : ProviderOutcome) (col : String),
      jsTruthy record.user_id = true →
      jsTruthy rcpt.push_token = true →
      prefColumnFor record.type = some col →
      rcpt.prefs col = some false →
      onNotification record (some rcpt) actorDisplayName outcome =
        { result := .skipped "user_preference_disabled", pushedTokens := [],
          pushedBody := none, pushedChannel := none, providerCalls := 0 }) ∧
    (∀ (record : MessageRecord) (participants : List Participant)
        (allProfiles : List MsgProfile) (senderDisplayName : Option String)
        (outcome : ProviderOutcome) (t : String),
      t ∈ (onMessage record participants allProfiles senderDisplayName outcome).pushedTokens →
      ∃ p ∈ profilesQuery allProfiles (unmutedIds participants),
        p.push_token = some t ∧ p.notify_direct_message ≠ some false) := by
  constructor
  · intro record rcpt actorDisplayName outcome col hu ht hcol hpref
    obtain ⟨tok, htok, hne⟩ := (jsTruthy_eq_true_iff rcpt.push_token).mp ht
    simp [onNotification, hu, htok, hne, prefDisabled, hcol, hpref]
  · intro record participants allProfiles senderDisplayName outcome t ht
    rcases onMessage_pushedTokens_cases record participants allProfiles senderDisplayName
        outcome with heq | heq
    · rw [heq] at ht
      exact absurd ht (List.not_mem_nil t)
    · rw [heq] at ht
      exact mem_msgTokens allProfiles (unmutedIds participants) t ht

/-- Witness for C1: a like event with notify_recipe_like false is skipped
with reason user_preference_disabled, and a dispatched message token is
attributed to a profile that did not disable direct messages. -/
theorem C1_pref_disabled_no_push_witness :
    onNotification ⟨some "u1", "like", some "a1", none, none⟩
        (some ⟨some "tok1", some "Bob",
          fun c => if c = "notify_recipe_like" then some false else none⟩)
        (some "Alice") (.success (some ["ok"])) =
      { result := .skipped "user_preference_disabled", pushedTokens := [],
        pushedBody := none, pushedChannel := none, providerCalls := 0 } ∧
    (∃ p ∈ profilesQuery [⟨"u2", some "tok2", none, some true⟩] (unmutedIds [⟨"u2", none⟩]),
      p.push_token = some "tok2" ∧ p.notify_direct_message ≠ some false) :=
  ⟨C1_pref_disabled_no_push.1 ⟨some "u1", "like", some "a1", none, none⟩
      ⟨some "tok1", some "Bob", fun c => if c = "notify_recipe_like" then some false else none⟩
      (some "Alice") (.success (some ["ok"])) "notify_recipe_like"
      (by decide) (by decide) (by decide) (by decide),
   C1_pref_disabled_no_push.2 ⟨some "c1", some "s1", some "hi", none⟩ [⟨"u2", none⟩]
      [⟨"u2", some "tok2", none, some true⟩] none (.success none) "tok2" (by decide)⟩

/-- Claim C3 counterexample: when every unmuted recipient has a non-null
token but has notify_direct_message explicitly false, the handler skips
with reason all_dm_disabled, not the claimed all_preference_disabled; and
a recipient whose token is null and whose preference is false is dropped
at the token query stage (reason no_push_tokens), not at the claimed
earlier preference stage. -/
theorem C3_reason_counterexample :
    (onMessage ⟨some "conv", some "sender", some "hi", none⟩ [⟨"u1", none⟩]
      [⟨"u1", some "tok1", none, some false⟩] none .throwErr).result =
      .skipped "all_dm_disabled" ∧
    (onMessage ⟨some "conv", some "sender", some "hi", none⟩ [⟨"u1", none⟩]
      [⟨"u1", some "tok1", none, some false⟩] none .throwErr).result ≠
      .skipped "all_preference_disabled" ∧
    (onMessage ⟨some "conv", some "sender", some "hi", none⟩ [⟨"u2", none⟩]
      [⟨"u2", none, none, some false⟩] none .throwErr).result =
      .skipped "no_push_tokens" := by
  decide

/-- Claim C3 (amended): the on-message gate filters in this order: drop
muted participants (reason all_muted), drop recipients with a null token
at the profile query (reason no_push_tokens), then drop recipients whose
notify_direct_message is explicitly false together with empty-string
tokens (shared reason all_dm_disabled); each skip reason is the one of
the stage that emptied the list, and the profiles reaching the
preference stage all carry a non-null token. -/
theorem C3_gate_order (record : MessageRecord) (participants : List Participant)
    (allProfiles : List MsgProfile) (senderDisplayName : Option String)
    (outcome : ProviderOutcome)
    (hc : jsTruthy record.conversation_id = true)
    (hs : jsTruthy record.sender_id = true) :
    (participants = [] →
      (onMessage record participants allProfiles senderDisplayName outcome).result =
        .skipped "no_recipients") ∧
    (participants ≠ [] → unmutedIds participants = [] →
      (onMessage record participants allProfiles senderDisplayName outcome).result =
        .skipped "all_muted") ∧
    (unmutedIds participants ≠ [] →
      profilesQuery allProfiles (unmutedIds participants) = [] →
      (onMessage record participants allProfiles senderDisplayName outcome).result =
        .skipped "no_push_tokens") ∧
    (profilesQuery allProfiles (unmutedIds participants) ≠ [] →
      msgTokens allProfiles (unmutedIds participants) = [] →
      (onMessage record participants allProfiles senderDisplayName outcome).result =
        .skipped "all_dm_disabled") ∧
    (msgTokens allProfiles (unmutedIds participants) ≠ [] →
      (onMessage record participants allProfiles senderDisplayName outcome).result =
        .dispatched (sendExpoPush (msgTokens allProfiles (unmutedIds participants))
          (jsOr senderDisplayName "Someone")
          (jsOr (msgPreview record) "Sent you a message") [] outcome).1) ∧
    (∀ p ∈ profilesQuery allProfiles (unmutedIds participants), p.push_token.isSome = true) := by
  refine ⟨?_, ?_, ?_, ?_, ?_, ?_⟩
  · intro hp
    simp [onMessage, hc, hs, hp]
  · intro hp hids
    simp [onMessage, hc, hs, List.isEmpty_iff, hp, hids]
  · intro hids hprof
    have hp : participants ≠ [] := by
      intro he
      exact hids (by rw [he]; rfl)
    simp [onMessage, hc, hs, List.isEmpty_iff, hp, hids, hprof]
  · intro hprof htoks
    have hids : unmutedIds participants ≠ [] := by
      intro he
      exact hprof (by rw [he]; exact profilesQuery_nil_ids allProfiles)
    have hp : participants ≠ [] := by
      intro he
      exact hids (by rw [he]; rfl)
    simp [onMessage, hc, hs, List.isEmpty_iff, hp, hids, hprof, htoks]
  · intro htoks
    have hprof : profilesQuery allProfiles (unmutedIds participants) ≠ [] := by
      intro he
      exact htoks (msgTokens_eq_nil_of_profilesQuery allProfiles (unmutedIds participants) he)
    have hids : unmutedIds participants ≠ [] := by
      intro he
      exact hprof (by rw [he]; exact profilesQuery_nil_ids allProfiles)
    have hp : participants ≠ [] := by
      intro he
      exact hids (by rw [he]; rfl)
    simp [onMessage, hc, hs, List.isEmpty_iff, hp, hids, hprof, htoks]
  · intro p hp
    simp only [profilesQuery, List.mem_filter, Bool.and_eq_true] at hp
    exact hp.2.2

/-- Witness for the amended C3 at concrete inputs exercising the
all_dm_disabled and no_push_tokens stages. -/
theorem C3_gate_order_witness :
    (onMessage ⟨some "c9", some "s9", some "hello", none⟩ [⟨"w1", none⟩]
      [⟨"w1", some "tokW", some "Alice", some false⟩] (some "Bob")
      (.success (some []))).result = .skipped "all_dm_disabled" ∧
    (onMessage ⟨some "c9", some "s9", some "hello", none⟩ [⟨"w2", none⟩]
      [⟨"w2", none, none, none⟩] (some "Bob")
      (.success (some []))).result = .skipped "no_push_tokens" :=
  ⟨(C3_gate_order ⟨some "c9", some "s9", some "hello", none⟩ [⟨"w1", none⟩]
      [⟨"w1", some "tokW", some "Alice", some false⟩] (some "Bob") (.success (some []))
      (by decide) (by decide)).2.2.2.1 (by decide) (by decide),
   (C3_gate_order ⟨some "c9", some "s9", some "hello", none⟩ [⟨"w2", none⟩]
      [⟨"w2", none, none, none⟩] (some "Bob") (.success (some []))
      (by decide) (by decide)).2.2.1 (by decide) (by decide)⟩

/-- Claim C5: with a truthy push token and a zero (or null) unread count
over the trailing window, the digest returns sent false with reason
no_unread and makes zero provider calls. -/
theorem C5_no_unread (pushToken : Option String) (unreadCount : Option Nat)
    (followingIds : List String) (postCount : Option Nat) (outcome : ProviderOutcome)
    (htok : jsTruthy pushToken = true)
    (hzero : unreadCount = none ∨ unreadCount = some 0) :
    digest pushToken unreadCount followingIds postCount outcome =
      (.ok [("sent", .jbool false), ("reason", .jstr "no_unread")], 0) := by
  obtain ⟨tok, htk, hne⟩ := (jsTruthy_eq_true_iff pushToken).mp htok
  rcases hzero with h | h <;> subst h <;> subst htk <;> simp [digest, hne]

/-- Witness for C5 at a concrete user state. -/
theorem C5_no_unread_witness :
    digest (some "tokD") (some 0) ["f1"] (some 7) (.success (some ["ok"])) =
      (.ok [("sent", .jbool false), ("reason", .jstr "no_unread")], 0) :=
  C5_no_unread (some "tokD") (some 0) ["f1"] (some 7) (.success (some ["ok"]))
    (by decide) (Or.inr rfl)

/-- Claim C6 counterexample: a digest reaching the dispatch step responds
with data whose sent field is the integer sent count (here 1), not the
boolean flag true: the spread of the dispatch result overwrites the
sent true property, so the response cannot carry both. -/
theorem C6_sent_flag_counterexample :
    digest (some "tok1") (some 2) [] none (.success (some ["ok"])) =
      (.ok [("sent", .jnum 1), ("failed", .jnum 0)], 1) ∧
    jsGet [("sent", .jnum 1), ("failed", .jnum 0)] "sent" ≠ some (.jbool true) := by
  decide

/-- Claim C6 (amended): every digest invocation that reaches the dispatch
step responds with data holding exactly the integer sent and failed
counts of the dispatch result; the sent true flag written first in the
object literal is overwritten by the spread and does not survive. -/
theorem C6_dispatch_response (tok : String) (unread : Nat) (followingIds : List String)
    (postCount : Option Nat) (outcome : ProviderOutcome)
    (htok : tok ≠ "") (hpos : 0 < unread) :
    digest (some tok) (some unread) followingIds postCount outcome =
      (.ok [("sent", .jnum (sendExpoPush [tok] "KitchenSync"
                (digestBody unread (digestNewPostCount followingIds postCount))
                [("type", .jstr "digest")] outcome).1.sent),
            ("failed", .jnum (sendExpoPush [tok] "KitchenSync"
                (digestBody unread (digestNewPostCount followingIds postCount))
                [("type", .jstr "digest")] outcome).1.failed)],
       (sendExpoPush [tok] "KitchenSync"
          (digestBody unread (digestNewPostCount followingIds postCount))
          [("type", .jstr "digest")] outcome).2) := by
  have hz : unread ≠ 0 := Nat.pos_iff_ne_zero.mp hpos
  simp [digest, htok, hz, digestSentData, jsSpread, jsSet]

/-- Witness for the amended C6 at a concrete failing dispatch. -/
theorem C6_dispatch_response_witness :
    digest (some "tokE") (some 1) [] none .throwErr =
      (.ok [("sent", .jnum (sendExpoPush ["tokE"] "KitchenSync"
                (digestBody 1 (digestNewPostCount [] none))
                [("type", .jstr "digest")] .throwErr).1.sent),
            ("failed", .jnum (sendExpoPush ["tokE"] "KitchenSync"
                (digestBody 1 (digestNewPostCount [] none))
                [("type", .jstr "digest")] .throwErr).1.failed)],
       (sendExpoPush ["tokE"] "KitchenSync"
          (digestBody 1 (digestNewPostCount [] none))
          [("type", .jstr "digest")] .throwErr).2) :=
  C6_dispatch_response "tokE" 1 [] none .throwErr (by decide) (by decide)

/-- Claim C10: for a text message whose content is absent or empty, a run
that still has eligible tokens dispatches with the fallback body
Sent you a message. -/
theorem C10_empty_text_fallback (record : MessageRecord) (participants : List Participant)
    (allProfiles : List MsgProfile) (senderDisplayName : Option String)
    (outcome : ProviderOutcome)
    (hc : jsTruthy record.conversation_id = true)
    (hs : jsTruthy record.sender_id = true)
    (htype : jsOr record.message_type "text" = "text")
    (hcontent : record.content = none ∨ record.content = some "")
    (htoks : msgTokens allProfiles (unmutedIds participants) ≠ []) :
    onMessage record participants allProfiles senderDisplayName outcome =
      { result := .dispatched (sendExpoPush (msgTokens allProfiles (unmutedIds participants))
          (jsOr senderDisplayName "Someone") "Sent you a message" [] outcome).1,
        pushedTokens := msgTokens allProfiles (unmutedIds participants),
        pushedBody := some "Sent you a message",
        pushedChannel := some "messages",
        providerCalls := 1 } := by
  have hpre : jsOr (msgPreview record) "Sent you a message" = "Sent you a message" := by
    rcases hcontent with h | h <;>
      · simp only [msgPreview, htype, h]
        simp [jsTruncatePreview, jsOr]
  have hprof : profilesQuery allProfiles (unmutedIds participants) ≠ [] := by
    intro he
    exact htoks (msgTokens_eq_nil_of_profilesQuery allProfiles (unmutedIds participants) he)
  have hids : unmutedIds participants ≠ [] := by
    intro he
    exact hprof (by rw [he]; exact profilesQuery_nil_ids allProfiles)
  have hp : participants ≠ [] := by
    intro he
    exact hids (by rw [he]; rfl)
  have hcalls := sendExpoPush_one_call (msgTokens allProfiles (unmutedIds participants))
    (jsOr senderDisplayName "Someone") "Sent you a message" [] outcome htoks
  simp [onMessage, hc, hs, List.isEmpty_iff, hp, hids, hprof, htoks, hpre, hcalls]

/-- Witness for C10: an empty text message to one eligible recipient is
dispatched with the fallback body. -/
theorem C10_empty_text_fallback_witness :
    onMessage ⟨some "c5", some "s5", none, none⟩ [⟨"z1", none⟩]
        [⟨"z1", some "tokZ", none, none⟩] none (.success (some ["ok"])) =
      { result := .dispatched (sendExpoPush (msgTokens [⟨"z1", some "tokZ", none, none⟩]
          (unmutedIds [⟨"z1", none⟩])) (jsOr none "Someone") "Sent you a message" []
          (.success (some ["ok"]))).1,
        pushedTokens := msgTokens [⟨"z1", some "tokZ", none, none⟩] (unmutedIds [⟨"z1", none⟩]),
        pushedBody := some "Sent you a message",
        pushedChannel := some "messages",
        providerCalls := 1 } :=
  C10_empty_text_fallback ⟨some "c5", some "s5", none, none⟩ [⟨"z1", none⟩]
    [⟨"z1", some "tokZ", none, none⟩] none (.success (some ["ok"]))
    (by decide) (by decide) (by decide) (Or.inl rfl) (by decide)
